import Mathlib

/-!
Shallow embedding of `report_engine.py` from the Funnel Report ETL Pipeline.

Conventions of the embedding:
* pandas structures become lists of records; a missing column or key
  (a pandas `KeyError`) becomes `Option.none` propagated through the result;
* an empty single-row DataFrame (`df.empty`) becomes `Option.none` on the
  whole record;
* machine floats become exact rationals; `astype(int)` and `int(...)`
  truncate toward zero (`truncQ`), `round(x, 1)` is `round1`;
* `datetime` dates become a (month index, day of month) pair; adding
  `timedelta(days=1)` is `nextDay`, and `(d + timedelta(days=32)).replace(day=1)`
  applied to the first day of a month is the first day of the next month,
  because every month has between 28 and 31 days;
* inner quotation marks of a few source label strings are omitted.
-/

/-- The eleven stage categories of the stage CSV, as in `STAGE_COLUMNS`. -/
inductive StageKey where
  | AA_client_Initialization
  | OTP_Based_Sign_in_Sign_up
  | View_Consent_Details
  | Discovery
  | Linking
  | Rejected_Consent_Requests
  | Approved_Consent_Requests
  | FIP_Rejected_Consent_Artefacts
  | FIP_Accepted_Consent_Artefacts
  | Data_Fetch_Success
  | Data_Fetch_Not_Attempted
deriving DecidableEq

/-- Column names in the stage CSV that are summed for the funnel (source list
`STAGE_COLUMNS`), in source order. -/
def STAGE_COLUMNS : List StageKey :=
  [.AA_client_Initialization, .OTP_Based_Sign_in_Sign_up, .View_Consent_Details,
   .Discovery, .Linking, .Rejected_Consent_Requests, .Approved_Consent_Requests,
   .FIP_Rejected_Consent_Artefacts, .FIP_Accepted_Consent_Artefacts,
   .Data_Fetch_Success, .Data_Fetch_Not_Attempted]

/-- A stage DataFrame: which columns are present, and the numeric cell values
of each row (one row per date). -/
structure StageDF where
  present : StageKey → Bool
  rows : List (StageKey → ℚ)

/-- Truncation toward zero, the semantics of numpy `astype(int)` and of
Python `int(...)` on a float. -/
def truncQ (q : ℚ) : ℤ := if 0 ≤ q then ⌊q⌋ else ⌈q⌉

/-- Embedding of `aggregate_stages`: select the eleven stage columns
(`stage_df[STAGE_COLUMNS]`, a `KeyError` hence `none` if one is missing),
convert with `astype(float).astype(int)` (truncation toward zero) and sum
each column over all rows. -/
def aggregate_stages (stage_df : StageDF) : Option (StageKey → ℤ) :=
  if STAGE_COLUMNS.all stage_df.present then
    some (fun k => (stage_df.rows.map (fun r => truncQ (r k))).sum)
  else none

/-- Rounding to one decimal place: Python `round(q, 1)` on exact values. -/
def round1 (q : ℚ) : ℚ := ((round (q * 10) : ℤ) : ℚ) / 10

/-- Embedding of `_pct`: percentage of `value` over `total` rounded to one
decimal, and `0` whenever `total > 0` fails. -/
def _pct (value total : ℤ) : ℚ :=
  if 0 < total then round1 (((value : ℚ) / (total : ℚ)) * 100) else 0

/-- The single row of the OTP totals DataFrame (`fetch_otp_totals` output). -/
structure OtpTotals where
  Total_Correct_OTP_Entered : ℚ
  Total_Incorrect_OTP_Entered : ℚ
  Total_OTP_Not_Entered : ℚ
deriving DecidableEq

/-- The single row of the discovery totals DataFrame; `none` in a field is a
pandas `NaN` (the source checks `pd.notna`). -/
structure DiscTotals where
  Account_Discovered : Option ℚ
  Account_not_Found : Option ℚ
  FIP_Not_Selected : Option ℚ
  Failure : Option ℚ
  NO_STATUS : Option ℚ
deriving DecidableEq

/-- One row of the FI fetch-status DataFrame. -/
structure FiRow where
  fetch_status : String
  Count : ℤ
deriving DecidableEq

/-- One cell of the report table: a label string, an integer count, or a
percentage value. -/
inductive Cell where
  | str : String → Cell
  | int : ℤ → Cell
  | pct : ℚ → Cell
deriving DecidableEq

/-- The eleven stage totals once every key lookup has succeeded, in the order
the source reads them. -/
structure StageVals where
  aci : ℤ
  otpSignIn : ℤ
  viewConsent : ℤ
  discovery : ℤ
  linking : ℤ
  rejected : ℤ
  approved : ℤ
  fipRejected : ℤ
  fipAccepted : ℤ
  fetchSuccess : ℤ
  fetchNotAttempted : ℤ
deriving DecidableEq

/-- The eleven `int(stage_totals[...])` lookups of `build_report_table`
(lines 239 to 269); any missing key is a `KeyError`, hence `none`. -/
def resolveStages (st : StageKey → Option ℤ) : Option StageVals :=
  match st .AA_client_Initialization, st .OTP_Based_Sign_in_Sign_up,
        st .View_Consent_Details, st .Discovery, st .Linking,
        st .Rejected_Consent_Requests, st .Approved_Consent_Requests,
        st .FIP_Rejected_Consent_Artefacts, st .FIP_Accepted_Consent_Artefacts,
        st .Data_Fetch_Success, st .Data_Fetch_Not_Attempted with
  | some a, some b, some c, some d, some e, some f, some g, some h, some i,
    some j, some k => some ⟨a, b, c, d, e, f, g, h, i, j, k⟩
  | _, _, _, _, _, _, _, _, _, _, _ => none

/-- Cohort size (`total_users` in the source): sum of the seven stage
categories of lines 239 to 247. -/
def totalUsers (v : StageVals) : ℤ :=
  v.aci + v.otpSignIn + v.viewConsent + v.discovery + v.linking + v.rejected + v.approved

/-- One discovery field as the source reads it: `0` when the discovery frame
is empty, `int(float(v))` when the cell is not `NaN`, else `0`. -/
def discField (disc : Option DiscTotals) (g : DiscTotals → Option ℚ) : ℤ :=
  match disc with
  | some dt => match g dt with
    | some q => truncQ q
    | none => 0
  | none => 0

/-- Stage-3 dropoff `d3`: the sum of the five discovery categories (zero when
the discovery frame is empty). -/
def d3Of (disc : Option DiscTotals) : ℤ :=
  discField disc DiscTotals.Account_Discovered
  + discField disc DiscTotals.Account_not_Found
  + discField disc DiscTotals.FIP_Not_Selected
  + discField disc DiscTotals.Failure
  + discField disc DiscTotals.NO_STATUS

/-- Value `otp_wrong` of the source: `Total_Incorrect_OTP_Entered` truncated,
or `0` when the OTP frame is empty. -/
def otpWrongOf (otp : Option OtpTotals) : ℤ :=
  match otp with
  | some o => truncQ o.Total_Incorrect_OTP_Entered
  | none => 0

/-- Value `otp_miss` of the source: `Total_OTP_Not_Entered` truncated, or `0`
when the OTP frame is empty. -/
def otpMissOf (otp : Option OtpTotals) : ℤ :=
  match otp with
  | some o => truncQ o.Total_OTP_Not_Entered
  | none => 0

/-- Value `fi_req_ok` of the source: the summed `Count` of the rows whose
`fetch_status` is `Success` plus those whose `fetch_status` is `Failed`
(an empty frame yields `0`, matching the source guard). -/
def fiReqOk (fi : List FiRow) : ℤ :=
  ((fi.filter (fun r => r.fetch_status == "Success")).map FiRow.Count).sum
  + ((fi.filter (fun r => r.fetch_status == "Failed")).map FiRow.Count).sum

/-- Body of `build_report_table` once the eleven stage lookups have
succeeded: the 24-row report table of lines 250 to 319. -/
def buildCore (v : StageVals) (otp : Option OtpTotals) (disc : Option DiscTotals)
    (fi : List FiRow) : List (List Cell) :=
  let total_users := totalUsers v
  let pct := fun x => Cell.pct (_pct x total_users)
  let d1 := v.aci
  let d2 := v.otpSignIn
  let view_drop := v.viewConsent
  let auth_drop := d2 + view_drop
  let d3 := d3Of disc
  let d4 := v.linking
  let rej := v.rejected
  let appr := v.approved
  let fip_rej := v.fipRejected
  let fip_ok := v.fipAccepted
  let fetch_ok := v.fetchSuccess
  let not_attempted := v.fetchNotAttempted
  let n_consent := total_users
  let n_after_init := n_consent - d1
  let n_after_auth := n_after_init - auth_drop
  let n_after_disc := n_after_auth - d3
  let n_after_link := n_after_disc - d4
  let fi_req_ok := fiReqOk fi
  let fi_fetch_drop := fi_req_ok - fetch_ok
  let otp_wrong := otpWrongOf otp
  let otp_miss := otpMissOf otp
  let otp_ok_drop := d2 - (otp_wrong + otp_miss) + view_drop
  let no_rec := discField disc DiscTotals.Account_not_Found
  let fip_fail := discField disc DiscTotals.NO_STATUS
  let some_fail := discField disc DiscTotals.Failure
  let found_not_linked :=
    discField disc DiscTotals.Account_Discovered + discField disc DiscTotals.FIP_Not_Selected
  [ [.str "Summary", .str "% of initial users", .str "", .str "Note", .str "", .str "", .str ""],
    [.str "Percentage of initial users who approved the consent", pct appr, .str "",
     .str "Please note that this funnel describes the journey of a user and not a consent request.",
     .str "", .str "", .str ""],
    [.str "Percentage of initial users who shared their data", pct fetch_ok, .str "",
     .str "", .str "", .str "", .str ""],
    [.str "", .str "", .str "", .str "", .str "", .str "", .str ""],
    [.str "", .str "", .str "Successful Users", .str "", .str "", .str "Dropped off Users", .str ""],
    [.str "Stage", .str "Positive Action", .str "Count", .str "% of initial users",
     .str "Dropoff Cause", .str "Count", .str "% of initial users"],
    [.str "Consent Initiated", .str "AA successfully received a consent handle",
     .int n_consent, pct n_consent, .str "AA did not receive a consent handle", .int 0, pct 0],
    [.str "FIU initiated AA Client", .str "AA client was successfully initiated",
     .int n_after_init, pct n_after_init, .str "AA client was not successfully initiated",
     .int d1, pct d1],
    [.str "Registration/Login", .str "User was authenticated",
     .int n_after_auth, pct n_after_auth, .str "User was not authenticated",
     .int auth_drop, pct auth_drop],
    [.str "", .str "", .str "", .str "", .str "↳Incorrect OTP entered", .int otp_wrong, pct otp_wrong],
    [.str "", .str "", .str "", .str "", .str "↳OTP not received back", .int otp_miss, pct otp_miss],
    [.str "", .str "", .str "", .str "", .str "↳Correct OTP entered but user dropped off",
     .int otp_ok_drop, pct otp_ok_drop],
    [.str "Account Discovery", .str "User was able to find accounts",
     .int n_after_disc, pct n_after_disc, .str "User was not able to find accounts",
     .int d3, pct d3],
    [.str "", .str "", .str "", .str "", .str "↳FIP returned No Records Found",
     .int no_rec, pct no_rec],
    [.str "", .str "", .str "", .str "", .str "↳FIP failed to send records",
     .int fip_fail, pct fip_fail],
    [.str "", .str "", .str "", .str "",
     .str "↳Some FIP returned No Records Found and some failed to send records",
     .int some_fail, pct some_fail],
    [.str "", .str "", .str "", .str "",
     .str "↳FIP returned accounts, but user did not link any accounts",
     .int found_not_linked, pct found_not_linked],
    [.str "Account Linking", .str "User was able to link accounts",
     .int n_after_link, pct n_after_link, .str "User was not able to link accounts",
     .int d4, pct d4],
    [.str "Consent Request Review", .str "User approved the consent request",
     .int appr, pct appr, .str "User did not approve the consent request", .int rej, pct rej],
    [.str "", .str "", .str "", .str "", .str "↳User rejected the consent", .int rej, pct rej],
    [.str "", .str "", .str "", .str "", .str "↳User did not take any action", .str "", .str ""],
    [.str "Consent Artefact Delivery", .str "FIP accepted the consent artefact",
     .int fip_ok, pct fip_ok, .str "FIP rejected the consent artefact", .int fip_rej, pct fip_rej],
    [.str "FI Request", .str "FIU successfully requested the data",
     .int fi_req_ok, pct fi_req_ok, .str "FIU did not request the data",
     .int not_attempted, pct not_attempted],
    [.str "FI Fetch", .str "FIU successfully received the data",
     .int fetch_ok, pct fetch_ok, .str "FIU did not received the data",
     .int fi_fetch_drop, pct fi_fetch_drop] ]

/-- Embedding of `build_report_table`: resolve the eleven stage lookups
(`KeyError` propagates as `none`) and build the 24-row table. -/
def build_report_table (stage_totals : StageKey → Option ℤ) (otp_totals : Option OtpTotals)
    (discovery_totals : Option DiscTotals) (fi_status_df : List FiRow) :
    Option (List (List Cell)) :=
  (resolveStages stage_totals).map
    (fun v => buildCore v otp_totals discovery_totals fi_status_df)

/-- Cell of a table at row `r`, column `c`. -/
def cellAt (t : List (List Cell)) (r c : ℕ) : Option Cell :=
  (t[r]?).bind (fun row => row[c]?)

/-- Cell of an optional table at row `r`, column `c`. -/
def tableCell (t : Option (List (List Cell))) (r c : ℕ) : Option Cell :=
  t.bind (fun tbl => cellAt tbl r c)

/-- Extract the integer values of the cells at the given positions; `none`
when some position does not hold an integer cell. -/
def intCellsAt (t : List (List Cell)) (ps : List (ℕ × ℕ)) : Option (List ℤ) :=
  ps.mapM (fun p =>
    match cellAt t p.1 p.2 with
    | some (.int n) => some n
    | _ => none)

/-! Date model for `_date_range` and `_month_prefixes`.

A `datetime` date is represented by its month index `mi` (counting months
from year 0, so the calendar month is `mi % 12 + 1` and the year `mi / 12`)
and its 1-based day of month. The datetime order is lexicographic on
(year, month, day), which is lexicographic on `(mi, day)` here. -/

/-- Gregorian leap year test. -/
def isLeap (y : ℕ) : Bool := (y % 4 == 0 && y % 100 != 0) || (y % 400 == 0)

/-- Number of days of the month with month index `mi`. -/
def daysInMonth (mi : ℕ) : ℕ :=
  if mi % 12 + 1 = 2 then (if isLeap (mi / 12) then 29 else 28)
  else if mi % 12 + 1 = 4 ∨ mi % 12 + 1 = 6 ∨ mi % 12 + 1 = 9 ∨ mi % 12 + 1 = 11 then 30
  else 31

/-- A calendar date: month index and 1-based day of month. -/
structure Date where
  mi : ℕ
  day : ℕ
deriving DecidableEq

/-- A date is well formed when its day lies inside its month. -/
def Date.Valid (d : Date) : Prop := 1 ≤ d.day ∧ d.day ≤ daysInMonth d.mi

instance (d : Date) : Decidable d.Valid := inferInstanceAs (Decidable (_ ∧ _))

/-- The datetime order `a <= b`, lexicographic on (month index, day). -/
def Date.le (a b : Date) : Prop := a.mi < b.mi ∨ (a.mi = b.mi ∧ a.day ≤ b.day)

/-- The strict datetime order `a < b`. -/
def Date.lt (a b : Date) : Prop := a.mi < b.mi ∨ (a.mi = b.mi ∧ a.day < b.day)

instance (a b : Date) : Decidable (a.le b) := inferInstanceAs (Decidable (_ ∨ _))
instance (a b : Date) : Decidable (a.lt b) := inferInstanceAs (Decidable (_ ∨ _))

/-- Adding `timedelta(days=1)`: the next day in the calendar. -/
def nextDay (d : Date) : Date :=
  if d.day < daysInMonth d.mi then ⟨d.mi, d.day + 1⟩ else ⟨d.mi + 1, 1⟩

/-- The while loop of `_date_range`: `while cur <= end: out.append(cur); cur += 1 day`. -/
def dateRangeLoop (e : Date) (cur : Date) : List Date :=
  if cur.le e then cur :: dateRangeLoop e (nextDay cur) else []
termination_by (e.mi * 32 + 33) - (cur.mi * 32 + min cur.day 32)
decreasing_by
  rename_i h
  have h1 : cur.mi ≤ e.mi := by rcases h with h | ⟨h, _⟩ <;> omega
  have h2 : daysInMonth cur.mi ≤ 31 := by unfold daysInMonth; split_ifs <;> omega
  unfold nextDay
  split <;> simp only [] <;> omega

/-- Embedding of `_date_range`: all days from `start` to `end` inclusive,
collected by the source's while loop. -/
def _date_range (s e : Date) : List Date := dateRangeLoop e s

/-- The while loop of `_month_prefixes`: the cursor is the first day of the
month with index `cur`; `(cur + timedelta(days=32)).replace(day=1)` applied
to such a date is the first day of month `cur + 1`, since every month has
between 28 and 31 days. Each iteration emits the (month, year) pair
formatted into the `*mm_yyyy` token. -/
def monthsLoop (e : Date) (cur : ℕ) : List (ℕ × ℕ) :=
  if (Date.mk cur 1).le e then (cur % 12 + 1, cur / 12) :: monthsLoop e (cur + 1) else []
termination_by e.mi + 1 - cur
decreasing_by
  rename_i h
  have h1 : cur ≤ e.mi := by
    rcases h with h | ⟨h, _⟩ <;> simp only [] at h <;> omega
  omega

/-- Embedding of `_month_prefixes`: starting from `start.replace(day=1)`,
emit one month token per loop iteration. -/
def _month_prefixes (s e : Date) : List (ℕ × ℕ) := monthsLoop e s.mi

instance : IsTrans Date Date.lt :=
  ⟨fun a b c h1 h2 => by
    obtain ⟨am, ad⟩ := a; obtain ⟨bm, bd⟩ := b; obtain ⟨cm, cd⟩ := c
    simp only [Date.lt] at *
    omega⟩

/-! Demo data of `get_mock_funnel_data`. -/

/-- The single synthetic stage row of the demo data (integer values). -/
def mockStageRow : StageKey → ℤ
  | .AA_client_Initialization => 800
  | .OTP_Based_Sign_in_Sign_up => 450
  | .View_Consent_Details => 1050
  | .Discovery => 600
  | .Linking => 1600
  | .Rejected_Consent_Requests => 1950
  | .Approved_Consent_Requests => 1250
  | .FIP_Rejected_Consent_Artefacts => 150
  | .FIP_Accepted_Consent_Artefacts => 1100
  | .Data_Fetch_Success => 820
  | .Data_Fetch_Not_Attempted => 50

/-- Embedding of `get_mock_funnel_data`: the four synthetic row-sets. -/
def get_mock_funnel_data : StageDF × OtpTotals × DiscTotals × List FiRow :=
  (⟨fun _ => true, [fun k => ((mockStageRow k : ℤ) : ℚ)]⟩,
   ⟨0, 450, 1200⟩,
   ⟨some 350, some 600, some 400, some 150, some 200⟩,
   [⟨"Success", 820⟩, ⟨"Failed", 230⟩, ⟨"Not Attempted", 50⟩])

/-- The demo pipeline of `run_reports.run` in demo mode: aggregate the mock
stage frame, then build the report table from the result. -/
def demoTable : Option (List (List Cell)) :=
  (aggregate_stages get_mock_funnel_data.1).bind
    (fun t => build_report_table (fun k => some (t k)) (some get_mock_funnel_data.2.1)
      (some get_mock_funnel_data.2.2.1) get_mock_funnel_data.2.2.2)

/-- Positions (row, column) of the nine per-stage successful counts, in
stage order. -/
def succPositions : List (ℕ × ℕ) :=
  [(6, 2), (7, 2), (8, 2), (12, 2), (17, 2), (18, 2), (21, 2), (22, 2), (23, 2)]

/-- Positions (row, column) of all dropoff counts carried by the table
(stage rows and sub-cause rows; the unmeasured sub-row 20 carries none). -/
def dropPositions : List (ℕ × ℕ) :=
  [(6, 5), (7, 5), (8, 5), (9, 5), (10, 5), (11, 5), (12, 5), (13, 5), (14, 5),
   (15, 5), (16, 5), (17, 5), (18, 5), (19, 5), (21, 5), (22, 5), (23, 5)]

/-! Shared lemmas. -/

theorem truncQ_intCast (n : ℤ) : truncQ ((n : ℤ) : ℚ) = n := by
  unfold truncQ
  split
  · exact Int.floor_intCast n
  · exact Int.ceil_intCast n

theorem daysInMonth_le31 (mi : ℕ) : daysInMonth mi ≤ 31 := by
  unfold daysInMonth; split_ifs <;> omega

theorem daysInMonth_ge28 (mi : ℕ) : 28 ≤ daysInMonth mi := by
  unfold daysInMonth; split_ifs <;> omega

theorem Date.le_refl (a : Date) : a.le a := Or.inr ⟨rfl, Nat.le_refl _⟩

theorem Date.le_trans {a b c : Date} (h1 : a.le b) (h2 : b.le c) : a.le c := by
  obtain ⟨am, ad⟩ := a; obtain ⟨bm, bd⟩ := b; obtain ⟨cm, cd⟩ := c
  simp only [Date.le] at *
  omega

theorem Date.lt_le {a b c : Date} (h1 : a.lt b) (h2 : b.le c) : a.lt c := by
  obtain ⟨am, ad⟩ := a; obtain ⟨bm, bd⟩ := b; obtain ⟨cm, cd⟩ := c
  simp only [Date.le, Date.lt] at *
  omega

theorem Date.not_le_of_lt {a b : Date} (h : a.lt b) : ¬ b.le a := by
  obtain ⟨am, ad⟩ := a; obtain ⟨bm, bd⟩ := b
  simp only [Date.le, Date.lt] at *
  omega

theorem Date.le_of_lt {a b : Date} (h : a.lt b) : a.le b := by
  obtain ⟨am, ad⟩ := a; obtain ⟨bm, bd⟩ := b
  simp only [Date.le, Date.lt] at *
  omega

theorem lt_nextDay (d : Date) : d.lt (nextDay d) := by
  obtain ⟨dm, dd⟩ := d
  unfold nextDay
  split
  · exact Or.inr ⟨rfl, Nat.lt_succ_self _⟩
  · exact Or.inl (Nat.lt_succ_self _)

theorem nextDay_valid {d : Date} (h : d.Valid) : (nextDay d).Valid := by
  obtain ⟨dm, dd⟩ := d
  have h1 : 1 ≤ dd := h.1
  have h2 : dd ≤ daysInMonth dm := h.2
  have h3 := daysInMonth_ge28 (dm + 1)
  unfold nextDay
  split
  · rename_i g
    have g2 : dd < daysInMonth dm := g
    have ga : 1 ≤ dd + 1 := by omega
    exact ⟨ga, g2⟩
  · exact ⟨Nat.le_refl 1, Nat.le_trans (by omega : (1 : ℕ) ≤ 28) h3⟩

/-- Among valid dates, `nextDay` is the immediate successor: any valid date
strictly above `d` is at or above `nextDay d`. -/
theorem nextDay_le {d x : Date} (hd : d.Valid) (hx : x.Valid) (hle : d.le x)
    (hne : x ≠ d) : (nextDay d).le x := by
  obtain ⟨dm, dd⟩ := d; obtain ⟨xm, xd⟩ := x
  have hd1 : 1 ≤ dd := hd.1
  have hd2 : dd ≤ daysInMonth dm := hd.2
  have hx1 : 1 ≤ xd := hx.1
  have hx2 : xd ≤ daysInMonth xm := hx.2
  have hle2 : dm < xm ∨ (dm = xm ∧ dd ≤ xd) := hle
  have hne2 : ¬ (xm = dm ∧ xd = dd) := by
    intro hq
    exact hne (by rw [hq.1, hq.2])
  unfold nextDay
  split
  · rename_i hsp
    have hgoal : dm < xm ∨ (dm = xm ∧ dd + 1 ≤ xd) := by
      rcases hle2 with h | ⟨h, h2⟩
      · exact Or.inl h
      · exact Or.inr ⟨h, by omega⟩
    exact hgoal
  · rename_i hsp
    have hsp2 : ¬ dd < daysInMonth dm := hsp
    have hgoal : dm + 1 < xm ∨ (dm + 1 = xm ∧ 1 ≤ xd) := by
      rcases hle2 with h | ⟨h, h2⟩
      · rcases Nat.lt_or_ge (dm + 1) xm with h3 | h3
        · exact Or.inl h3
        · exact Or.inr ⟨by omega, hx1⟩
      · exfalso
        have hdm : daysInMonth dm = daysInMonth xm := by rw [h]
        omega
    exact hgoal

theorem mem_dateRangeLoop (e : Date) (he : e.Valid) :
    ∀ cur, cur.Valid → ∀ x, x.Valid →
      (x ∈ dateRangeLoop e cur ↔ (cur.le x ∧ x.le e)) := by
  intro cur
  induction cur using dateRangeLoop.induct (e := e) with
  | case1 cur hle ih =>
    intro hcv x hxv
    rw [dateRangeLoop, if_pos hle, List.mem_cons]
    constructor
    · rintro (rfl | hm)
      · exact ⟨Date.le_refl _, hle⟩
      · have h := (ih (nextDay_valid hcv) x hxv).mp hm
        exact ⟨Date.le_trans (Date.le_of_lt (lt_nextDay cur)) h.1, h.2⟩
    · rintro ⟨hcx, hxe⟩
      by_cases hq : x = cur
      · exact Or.inl hq
      · exact Or.inr ((ih (nextDay_valid hcv) x hxv).mpr ⟨nextDay_le hcv hxv hcx hq, hxe⟩)
  | case2 cur hnle =>
    intro _ x _
    rw [dateRangeLoop, if_neg hnle]
    simp only [List.not_mem_nil, false_iff]
    rintro ⟨hcx, hxe⟩
    exact hnle (Date.le_trans hcx hxe)

theorem chain_step_dateRangeLoop (e : Date) :
    ∀ cur, List.Chain' (fun a b => b = nextDay a) (dateRangeLoop e cur) := by
  intro cur
  induction cur using dateRangeLoop.induct (e := e) with
  | case1 cur hle ih =>
    rw [dateRangeLoop, if_pos hle]
    apply List.chain'_cons'.mpr
    refine ⟨fun y hy => ?_, ih⟩
    rw [dateRangeLoop] at hy
    split at hy
    · simp only [List.head?_cons, Option.mem_def, Option.some.injEq] at hy
      exact hy.symm
    · simp at hy
  | case2 cur hnle =>
    rw [dateRangeLoop, if_neg hnle]
    exact List.chain'_nil

theorem chain_lt_dateRangeLoop (e : Date) :
    ∀ cur, List.Chain' Date.lt (dateRangeLoop e cur) := by
  intro cur
  induction cur using dateRangeLoop.induct (e := e) with
  | case1 cur hle ih =>
    rw [dateRangeLoop, if_pos hle]
    apply List.chain'_cons'.mpr
    refine ⟨fun y hy => ?_, ih⟩
    rw [dateRangeLoop] at hy
    split at hy
    · simp only [List.head?_cons, Option.mem_def, Option.some.injEq] at hy
      exact hy ▸ lt_nextDay cur
    · simp at hy
  | case2 cur hnle =>
    rw [dateRangeLoop, if_neg hnle]
    exact List.chain'_nil

theorem head_dateRangeLoop (s e : Date) (h : s.le e) :
    (dateRangeLoop e s).head? = some s := by
  rw [dateRangeLoop, if_pos h]; rfl

theorem getLast_dateRangeLoop (e : Date) (he : e.Valid) :
    ∀ cur, cur.Valid → cur.le e → (dateRangeLoop e cur).getLast? = some e := by
  intro cur
  induction cur using dateRangeLoop.induct (e := e) with
  | case1 cur hle ih =>
    intro hcv _
    rw [dateRangeLoop, if_pos hle]
    by_cases hn : (nextDay cur).le e
    · have hne : dateRangeLoop e (nextDay cur) ≠ [] := by
        rw [dateRangeLoop, if_pos hn]; simp
      obtain ⟨hd, tl, heq⟩ := List.exists_cons_of_ne_nil hne
      rw [heq, List.getLast?_cons_cons, ← heq]
      exact ih (nextDay_valid hcv) hn
    · rw [dateRangeLoop, if_neg hn]
      have hce : cur = e := by
        by_contra hq
        exact hn (nextDay_le hcv he hle (Ne.symm hq))
      rw [hce]
      rfl
  | case2 cur hnle =>
    intro _ h
    exact absurd h hnle

theorem single_dateRangeLoop (s : Date) : dateRangeLoop s s = [s] := by
  rw [dateRangeLoop, if_pos (Date.le_refl s)]
  rw [dateRangeLoop, if_neg (Date.not_le_of_lt (lt_nextDay s))]

theorem pairwise_lt_dateRangeLoop (e : Date) (cur : Date) :
    List.Pairwise Date.lt (dateRangeLoop e cur) :=
  List.chain'_iff_pairwise.mp (chain_lt_dateRangeLoop e cur)

theorem monthsLoop_eq_range (e : Date) (he : 1 ≤ e.day) :
    ∀ cur, monthsLoop e cur
      = (List.range' cur (e.mi + 1 - cur)).map (fun mi => (mi % 12 + 1, mi / 12)) := by
  intro cur
  induction cur using monthsLoop.induct (e := e) with
  | case1 cur hle ih =>
    have h1 : cur ≤ e.mi := by
      rcases hle with h | ⟨h, _⟩ <;> simp only [] at h <;> omega
    rw [monthsLoop, if_pos hle, ih]
    have h2 : e.mi + 1 - cur = (e.mi - cur) + 1 := by omega
    have h3 : e.mi + 1 - (cur + 1) = e.mi - cur := by omega
    rw [h2, h3, List.range'_succ, List.map_cons]
  | case2 cur hnle =>
    have h1 : ¬ cur ≤ e.mi := by
      intro h
      apply hnle
      rcases Nat.lt_or_ge cur e.mi with h2 | h2
      · exact Or.inl h2
      · have h4 : cur = e.mi := by omega
        exact Or.inr ⟨h4, he⟩
    have h2 : e.mi + 1 - cur = 0 := by omega
    rw [monthsLoop, if_neg hnle, h2]
    rfl

/-! Claim theorems. -/

/-- C1: for every stage-totals mapping with non-negative integer values, the
cohort size cell of the funnel table (row 6, column 2) equals the sum of
exactly the seven categories client-initialization, OTP-sign-in,
view-consent-details, discovery, linking, rejected-consent and
approved-consent, and changing any of the other four stage categories
leaves that cohort cell unchanged. -/
theorem cohort_size_seven_categories (f : StageKey → ℤ) (hf : ∀ k, 0 ≤ f k)
    (otp : Option OtpTotals) (disc : Option DiscTotals) (fi : List FiRow) :
    tableCell (build_report_table (fun k => some (f k)) otp disc fi) 6 2
      = some (Cell.int (f .AA_client_Initialization + f .OTP_Based_Sign_in_Sign_up
          + f .View_Consent_Details + f .Discovery + f .Linking
          + f .Rejected_Consent_Requests + f .Approved_Consent_Requests))
    ∧ ∀ g : StageKey → ℤ,
        (∀ k ∈ [StageKey.AA_client_Initialization, StageKey.OTP_Based_Sign_in_Sign_up,
            StageKey.View_Consent_Details, StageKey.Discovery, StageKey.Linking,
            StageKey.Rejected_Consent_Requests, StageKey.Approved_Consent_Requests],
          g k = f k) →
        tableCell (build_report_table (fun k => some (g k)) otp disc fi) 6 2
          = tableCell (build_report_table (fun k => some (f k)) otp disc fi) 6 2 := by
  constructor
  · rfl
  · intro g hg
    have e1 : tableCell (build_report_table (fun k => some (g k)) otp disc fi) 6 2
        = some (Cell.int (g .AA_client_Initialization + g .OTP_Based_Sign_in_Sign_up
            + g .View_Consent_Details + g .Discovery + g .Linking
            + g .Rejected_Consent_Requests + g .Approved_Consent_Requests)) := rfl
    have e2 : tableCell (build_report_table (fun k => some (f k)) otp disc fi) 6 2
        = some (Cell.int (f .AA_client_Initialization + f .OTP_Based_Sign_in_Sign_up
            + f .View_Consent_Details + f .Discovery + f .Linking
            + f .Rejected_Consent_Requests + f .Approved_Consent_Requests)) := rfl
    rw [e1, e2, hg .AA_client_Initialization (by simp), hg .OTP_Based_Sign_in_Sign_up (by simp),
      hg .View_Consent_Details (by simp), hg .Discovery (by simp), hg .Linking (by simp),
      hg .Rejected_Consent_Requests (by simp), hg .Approved_Consent_Requests (by simp)]

/-- C1 witness: the theorem applied to the all-ones stage mapping. -/
theorem cohort_size_seven_categories_witness :
    tableCell (build_report_table (fun _ => some 1) none none []) 6 2
      = some (Cell.int 7) :=
  (cohort_size_seven_categories (fun _ => 1) (fun _ => (by decide : (0 : ℤ) ≤ 1)) none none []).1

/-- C3: for all integer inputs, the stage-2 (authentication) dropoff cell
equals OTP-sign-in plus view-consent-details, its three sub-cause cells are
exactly the incorrect-OTP count, the OTP-not-entered count and the residual
(OTP-sign-in minus incorrect minus not-entered) plus view-consent-details,
emitted by this exact formula even when the residual is negative, and the
three sub-causes sum to the stage-2 dropoff total. -/
theorem stage2_dropoff_decomposition (f : StageKey → ℤ) (corr wrong miss : ℤ)
    (disc : Option DiscTotals) (fi : List FiRow) :
    tableCell (build_report_table (fun k => some (f k))
        (some ⟨(corr : ℚ), (wrong : ℚ), (miss : ℚ)⟩) disc fi) 8 5
      = some (Cell.int (f .OTP_Based_Sign_in_Sign_up + f .View_Consent_Details))
    ∧ tableCell (build_report_table (fun k => some (f k))
        (some ⟨(corr : ℚ), (wrong : ℚ), (miss : ℚ)⟩) disc fi) 9 5
      = some (Cell.int wrong)
    ∧ tableCell (build_report_table (fun k => some (f k))
        (some ⟨(corr : ℚ), (wrong : ℚ), (miss : ℚ)⟩) disc fi) 10 5
      = some (Cell.int miss)
    ∧ tableCell (build_report_table (fun k => some (f k))
        (some ⟨(corr : ℚ), (wrong : ℚ), (miss : ℚ)⟩) disc fi) 11 5
      = some (Cell.int (f .OTP_Based_Sign_in_Sign_up - (wrong + miss)
          + f .View_Consent_Details))
    ∧ wrong + miss + (f .OTP_Based_Sign_in_Sign_up - (wrong + miss)
          + f .View_Consent_Details)
        = f .OTP_Based_Sign_in_Sign_up + f .View_Consent_Details := by
  refine ⟨rfl, ?_, ?_, ?_, by ring⟩
  · have e : tableCell (build_report_table (fun k => some (f k))
        (some ⟨(corr : ℚ), (wrong : ℚ), (miss : ℚ)⟩) disc fi) 9 5
        = some (Cell.int (truncQ ((wrong : ℤ) : ℚ))) := rfl
    rw [e, truncQ_intCast]
  · have e : tableCell (build_report_table (fun k => some (f k))
        (some ⟨(corr : ℚ), (wrong : ℚ), (miss : ℚ)⟩) disc fi) 10 5
        = some (Cell.int (truncQ ((miss : ℤ) : ℚ))) := rfl
    rw [e, truncQ_intCast]
  · have e : tableCell (build_report_table (fun k => some (f k))
        (some ⟨(corr : ℚ), (wrong : ℚ), (miss : ℚ)⟩) disc fi) 11 5
        = some (Cell.int (f .OTP_Based_Sign_in_Sign_up
            - (truncQ ((wrong : ℤ) : ℚ) + truncQ ((miss : ℤ) : ℚ))
            + f .View_Consent_Details)) := rfl
    rw [e, truncQ_intCast, truncQ_intCast]

/-- C5 counterexample: with an empty fetch-status row-set but a nonzero
Data-Fetch-Success stage total, the stage-8 (FI fetch) successful cell is
820, not 0 as the claim states. -/
theorem empty_fetch_status_stage8_nonzero :
    tableCell (build_report_table
        (fun k => if k = StageKey.Data_Fetch_Success then some 820 else some 0)
        none none []) 23 2
      = some (Cell.int 820)
    ∧ Cell.int 820 ≠ Cell.int 0 := by
  constructor
  · rfl
  · decide

/-- C5 amended: with an empty fetch-status row-set the builder succeeds, the
stage-7 (FI request) successful cell is 0, and the stage-8 (FI fetch)
successful cell equals the Data-Fetch-Success stage total (it is not drawn
from the fetch-status row-set). -/
theorem empty_fetch_status_counts (f : StageKey → ℤ) (otp : Option OtpTotals)
    (disc : Option DiscTotals) :
    tableCell (build_report_table (fun k => some (f k)) otp disc []) 22 2
      = some (Cell.int 0)
    ∧ tableCell (build_report_table (fun k => some (f k)) otp disc []) 23 2
      = some (Cell.int (f .Data_Fetch_Success)) :=
  ⟨rfl, rfl⟩

/-- C8: the "User did not take any action" sub-row of the consent review
stage carries an empty dropoff count and an empty percentage (the empty
string, never the integer zero), while its sibling sub-row echoes the
rejected-consent count. -/
theorem no_action_subrow_blank (f : StageKey → ℤ) (otp : Option OtpTotals)
    (disc : Option DiscTotals) (fi : List FiRow) :
    tableCell (build_report_table (fun k => some (f k)) otp disc fi) 20 5
      = some (Cell.str "")
    ∧ tableCell (build_report_table (fun k => some (f k)) otp disc fi) 20 6
      = some (Cell.str "")
    ∧ tableCell (build_report_table (fun k => some (f k)) otp disc fi) 20 5
      ≠ some (Cell.int 0)
    ∧ tableCell (build_report_table (fun k => some (f k)) otp disc fi) 19 5
      = some (Cell.int (f .Rejected_Consent_Requests)) := by
  refine ⟨rfl, rfl, ?_, rfl⟩
  have e : tableCell (build_report_table (fun k => some (f k)) otp disc fi) 20 5
      = some (Cell.str "") := rfl
  rw [e]
  simp

/-- C4 counterexample: a stage-totals mapping missing the
client-initialization key makes the builder fail (no funnel table), and a
stage frame missing that column makes the aggregation fail, contrary to the
claim that missing keys are treated as zero. -/
theorem missing_stage_key_not_zeroed :
    build_report_table
        (fun k => if k = StageKey.AA_client_Initialization then none else some 0)
        none none [] = none
    ∧ aggregate_stages ⟨fun k => k != StageKey.AA_client_Initialization, []⟩ = none :=
  ⟨rfl, rfl⟩

/-- C4 amended: a stage-totals input missing any of the eleven required stage
keys makes the funnel table builder fail with a key lookup error (no table is
produced), and a stage frame missing any of the eleven columns makes the
stage aggregation fail likewise; missing keys are not treated as zero. -/
theorem missing_stage_key_fails (st : StageKey → Option ℤ) (otp : Option OtpTotals)
    (disc : Option DiscTotals) (fi : List FiRow) (df : StageDF)
    (hst : ∃ k, st k = none) (hdf : ∃ k, df.present k = false) :
    build_report_table st otp disc fi = none ∧ aggregate_stages df = none := by
  constructor
  · obtain ⟨k, hk⟩ := hst
    unfold build_report_table resolveStages
    cases k <;> rw [hk] <;>
      cases st .AA_client_Initialization <;> try rfl
    all_goals cases st .OTP_Based_Sign_in_Sign_up <;> try rfl
    all_goals cases st .View_Consent_Details <;> try rfl
    all_goals cases st .Discovery <;> try rfl
    all_goals cases st .Linking <;> try rfl
    all_goals cases st .Rejected_Consent_Requests <;> try rfl
    all_goals cases st .Approved_Consent_Requests <;> try rfl
    all_goals cases st .FIP_Rejected_Consent_Artefacts <;> try rfl
    all_goals cases st .FIP_Accepted_Consent_Artefacts <;> try rfl
    all_goals cases st .Data_Fetch_Success <;> try rfl
  · obtain ⟨k, hk⟩ := hdf
    unfold aggregate_stages
    have hcond : ¬ (STAGE_COLUMNS.all df.present = true) := by
      intro hall
      rw [List.all_eq_true] at hall
      have hmem : k ∈ STAGE_COLUMNS := by cases k <;> simp [STAGE_COLUMNS]
      have hkt := hall k hmem
      rw [hk] at hkt
      exact Bool.noConfusion hkt
    rw [if_neg hcond]

/-- C4 witness: the amended theorem applied to a mapping missing the Linking
key and a frame missing the Linking column. -/
theorem missing_stage_key_fails_witness :
    build_report_table (fun k => if k = StageKey.Linking then none else some 1)
        none none [] = none
    ∧ aggregate_stages ⟨fun k => k != StageKey.Linking, []⟩ = none :=
  missing_stage_key_fails _ none none [] _
    ⟨StageKey.Linking, by decide⟩ ⟨StageKey.Linking, by decide⟩

/-- C6 counterexample: with every dropoff count equal to zero (hence
non-negative) but a nonzero FIP-accepted stage total, the successful counts
down the stage rows are 0,0,0,0,0,0,5,0,0, which is not monotonically
non-increasing. -/
theorem succ_counts_not_monotone :
    intCellsAt (buildCore ⟨0, 0, 0, 0, 0, 0, 0, 0, 5, 0, 0⟩ none none []) dropPositions
      = some [0, 0, 0, 0, 0, 0, 0, 0, 0, 0, 0, 0, 0, 0, 0, 0, 0]
    ∧ intCellsAt (buildCore ⟨0, 0, 0, 0, 0, 0, 0, 0, 5, 0, 0⟩ none none []) succPositions
      = some [0, 0, 0, 0, 0, 0, 5, 0, 0]
    ∧ ¬ List.Chain' (fun x y => y ≤ x) [(0 : ℤ), 0, 0, 0, 0, 0, 5, 0, 0] := by
  refine ⟨rfl, rfl, ?_⟩
  intro h
  simp only [List.chain'_cons, List.chain'_singleton, and_true] at h
  omega

/-- C6 amended: when every dropoff count of the table is non-negative and the
three raw passthrough stages are consistent with the running cohort (the
discovery dropoff total is at most stage-Discovery plus rejected-consent,
FIP-accepted is at most approved-consent, and the FI-request successful count
is at most FIP-accepted), the successful counts down the nine stage rows are
monotonically non-increasing. -/
theorem succ_counts_monotone (f : StageKey → ℤ) (corr wrong miss a b c d e : ℤ)
    (fi : List FiRow)
    (hd1 : 0 ≤ f .AA_client_Initialization)
    (hd2 : 0 ≤ f .OTP_Based_Sign_in_Sign_up + f .View_Consent_Details)
    (hd3 : 0 ≤ a + b + c + d + e)
    (hd4 : 0 ≤ f .Linking)
    (hd5 : 0 ≤ f .Rejected_Consent_Requests)
    (hd6 : 0 ≤ f .FIP_Rejected_Consent_Artefacts)
    (hd7 : 0 ≤ f .Data_Fetch_Not_Attempted)
    (hd8 : 0 ≤ fiReqOk fi - f .Data_Fetch_Success)
    (hc1 : a + b + c + d + e ≤ f .Discovery + f .Rejected_Consent_Requests)
    (hc2 : f .FIP_Accepted_Consent_Artefacts ≤ f .Approved_Consent_Requests)
    (hc3 : fiReqOk fi ≤ f .FIP_Accepted_Consent_Artefacts) :
    ∀ l, intCellsAt
        (buildCore
          ⟨f .AA_client_Initialization, f .OTP_Based_Sign_in_Sign_up,
           f .View_Consent_Details, f .Discovery, f .Linking,
           f .Rejected_Consent_Requests, f .Approved_Consent_Requests,
           f .FIP_Rejected_Consent_Artefacts, f .FIP_Accepted_Consent_Artefacts,
           f .Data_Fetch_Success, f .Data_Fetch_Not_Attempted⟩
          (some ⟨(corr : ℚ), (wrong : ℚ), (miss : ℚ)⟩)
          (some ⟨some (a : ℚ), some (b : ℚ), some (c : ℚ), some (d : ℚ), some (e : ℚ)⟩)
          fi)
        succPositions = some l →
      List.Chain' (fun x y => y ≤ x) l := by
  intro l hl
  have hcells : intCellsAt
      (buildCore
        ⟨f .AA_client_Initialization, f .OTP_Based_Sign_in_Sign_up,
         f .View_Consent_Details, f .Discovery, f .Linking,
         f .Rejected_Consent_Requests, f .Approved_Consent_Requests,
         f .FIP_Rejected_Consent_Artefacts, f .FIP_Accepted_Consent_Artefacts,
         f .Data_Fetch_Success, f .Data_Fetch_Not_Attempted⟩
        (some ⟨(corr : ℚ), (wrong : ℚ), (miss : ℚ)⟩)
        (some ⟨some (a : ℚ), some (b : ℚ), some (c : ℚ), some (d : ℚ), some (e : ℚ)⟩)
        fi)
      succPositions
      = some
        [f .AA_client_Initialization + f .OTP_Based_Sign_in_Sign_up
           + f .View_Consent_Details + f .Discovery + f .Linking
           + f .Rejected_Consent_Requests + f .Approved_Consent_Requests,
         f .AA_client_Initialization + f .OTP_Based_Sign_in_Sign_up
           + f .View_Consent_Details + f .Discovery + f .Linking
           + f .Rejected_Consent_Requests + f .Approved_Consent_Requests
           - f .AA_client_Initialization,
         f .AA_client_Initialization + f .OTP_Based_Sign_in_Sign_up
           + f .View_Consent_Details + f .Discovery + f .Linking
           + f .Rejected_Consent_Requests + f .Approved_Consent_Requests
           - f .AA_client_Initialization
           - (f .OTP_Based_Sign_in_Sign_up + f .View_Consent_Details),
         f .AA_client_Initialization + f .OTP_Based_Sign_in_Sign_up
           + f .View_Consent_Details + f .Discovery + f .Linking
           + f .Rejected_Consent_Requests + f .Approved_Consent_Requests
           - f .AA_client_Initialization
           - (f .OTP_Based_Sign_in_Sign_up + f .View_Consent_Details)
           - (truncQ ((a : ℤ) : ℚ) + truncQ ((b : ℤ) : ℚ) + truncQ ((c : ℤ) : ℚ)
              + truncQ ((d : ℤ) : ℚ) + truncQ ((e : ℤ) : ℚ)),
         f .AA_client_Initialization + f .OTP_Based_Sign_in_Sign_up
           + f .View_Consent_Details + f .Discovery + f .Linking
           + f .Rejected_Consent_Requests + f .Approved_Consent_Requests
           - f .AA_client_Initialization
           - (f .OTP_Based_Sign_in_Sign_up + f .View_Consent_Details)
           - (truncQ ((a : ℤ) : ℚ) + truncQ ((b : ℤ) : ℚ) + truncQ ((c : ℤ) : ℚ)
              + truncQ ((d : ℤ) : ℚ) + truncQ ((e : ℤ) : ℚ))
           - f .Linking,
         f .Approved_Consent_Requests,
         f .FIP_Accepted_Consent_Artefacts,
         fiReqOk fi,
         f .Data_Fetch_Success] := rfl
  rw [hcells] at hl
  have hl2 := Option.some.inj hl
  subst hl2
  simp only [truncQ_intCast]
  simp only [List.chain'_cons, List.chain'_singleton, and_true]
  refine ⟨by omega, by omega, by omega, by omega, by omega, by omega, by omega, by omega⟩

/-- C6 witness: the amended theorem applied to the demo numbers, whose
successful counts are 7700, 6900, 5400, 3700, 2100, 1250, 1100, 1050, 820. -/
theorem succ_counts_monotone_witness :
    List.Chain' (fun x y => y ≤ x)
      [(7700 : ℤ), 6900, 5400, 3700, 2100, 1250, 1100, 1050, 820] := by
  have h := succ_counts_monotone mockStageRow 0 450 1200 350 600 400 150 200
    [⟨"Success", 820⟩, ⟨"Failed", 230⟩, ⟨"Not Attempted", 50⟩]
    (by decide) (by decide) (by decide) (by decide) (by decide) (by decide)
    (by decide) (by decide) (by decide) (by decide) (by decide)
  exact h [7700, 6900, 5400, 3700, 2100, 1250, 1100, 1050, 820] rfl

/-- C9: for well-formed dates with start at or before end, the day-grain
resolver returns the days from start to end inclusive: it starts at start,
ends at end, steps by exactly one calendar day (no gaps), is strictly
ascending (no duplicates), contains exactly the valid dates between start
and end, and a zero-length range yields exactly one day; the month-grain
resolver returns exactly the distinct calendar months spanned by the range,
in ascending order. -/
theorem date_range_resolvers_correct (s e : Date) (hs : s.Valid) (he : e.Valid)
    (hse : s.le e) :
    (_date_range s e).head? = some s
    ∧ (_date_range s e).getLast? = some e
    ∧ List.Chain' (fun a b => b = nextDay a) (_date_range s e)
    ∧ List.Pairwise Date.lt (_date_range s e)
    ∧ (∀ x, x.Valid → (x ∈ _date_range s e ↔ (s.le x ∧ x.le e)))
    ∧ (s = e → _date_range s e = [s])
    ∧ _month_prefixes s e
        = (List.range' s.mi (e.mi + 1 - s.mi)).map (fun mi => (mi % 12 + 1, mi / 12))
    ∧ (_month_prefixes s e).Nodup := by
  refine ⟨head_dateRangeLoop s e hse, getLast_dateRangeLoop e he s hs hse,
    chain_step_dateRangeLoop e s, pairwise_lt_dateRangeLoop e s,
    fun x hx => mem_dateRangeLoop e he s hs x hx, ?_, monthsLoop_eq_range e he.1 s.mi, ?_⟩
  · intro h
    subst h
    exact single_dateRangeLoop s
  · rw [show _month_prefixes s e = monthsLoop e s.mi from rfl,
      monthsLoop_eq_range e he.1 s.mi]
    apply List.Nodup.map
    · intro x y hxy
      have h1 : x % 12 + 1 = y % 12 + 1 := congrArg Prod.fst hxy
      have h2 : x / 12 = y / 12 := congrArg Prod.snd hxy
      omega
    · exact List.nodup_range' _ _

/-- C9 witness: the theorem applied to the leap-crossing range from
28 February 2024 to 2 March 2024. -/
theorem date_range_resolvers_correct_witness :
    (_date_range ⟨24289, 28⟩ ⟨24290, 2⟩).head? = some ⟨24289, 28⟩
    ∧ (_date_range ⟨24289, 28⟩ ⟨24290, 2⟩).getLast? = some ⟨24290, 2⟩
    ∧ _month_prefixes ⟨24289, 28⟩ ⟨24290, 2⟩
        = (List.range' 24289 (24290 + 1 - 24289)).map (fun mi => (mi % 12 + 1, mi / 12)) := by
  have h := date_range_resolvers_correct ⟨24289, 28⟩ ⟨24290, 2⟩
    (by decide) (by decide) (by decide)
  exact ⟨h.1, h.2.1, h.2.2.2.2.2.2.1⟩

/-- C10: for a stage frame with all eleven columns of numeric values, the
aggregation yields, for each column, the sum of its per-row values truncated
toward zero; when every cell is an integer the totals are the exact
elementwise sums, and a fractional cell is truncated toward zero, not
rounded. -/
theorem aggregate_stages_truncates (df : StageDF) (hp : ∀ k, df.present k = true) :
    aggregate_stages df = some (fun k => (df.rows.map (fun r => truncQ (r k))).sum)
    ∧ ((∀ r ∈ df.rows, ∀ k, ∃ n : ℤ, r k = (n : ℚ)) →
        ∀ k, (((df.rows.map (fun r => truncQ (r k))).sum : ℤ) : ℚ)
          = (df.rows.map (fun r => r k)).sum)
    ∧ truncQ (9 / 10) = 0 ∧ truncQ (-9 / 10) = 0 ∧ truncQ (19 / 10) = 1
    ∧ truncQ (-19 / 10) = -1 := by
  refine ⟨?_, ?_, ?_, ?_, ?_, ?_⟩
  · unfold aggregate_stages
    rw [if_pos]
    rw [List.all_eq_true]
    intro k _
    exact hp k
  · have main : ∀ l : List (StageKey → ℚ),
        (∀ r ∈ l, ∀ k, ∃ n : ℤ, r k = (n : ℚ)) →
        ∀ k, (((l.map (fun r => truncQ (r k))).sum : ℤ) : ℚ)
          = (l.map (fun r => r k)).sum := by
      intro l
      induction l with
      | nil =>
        intro _ k
        simp
      | cons rr tl ih =>
        intro hint k
        simp only [List.map_cons, List.sum_cons, Int.cast_add]
        obtain ⟨n, hn⟩ := hint rr (List.mem_cons_self rr tl) k
        rw [hn, truncQ_intCast,
          ih (fun r hr => hint r (List.mem_cons_of_mem _ hr)) k]
    exact main df.rows
  · rw [show truncQ (9 / 10) = ⌊(9 / 10 : ℚ)⌋ from if_pos (by norm_num)]
    norm_num
  · rw [show truncQ (-9 / 10) = ⌈(-9 / 10 : ℚ)⌉ from if_neg (by norm_num),
      show ((-9 : ℚ) / 10) = -(9 / 10) by norm_num, Int.ceil_neg]
    norm_num
  · rw [show truncQ (19 / 10) = ⌊(19 / 10 : ℚ)⌋ from if_pos (by norm_num)]
    norm_num
  · rw [show truncQ (-19 / 10) = ⌈(-19 / 10 : ℚ)⌉ from if_neg (by norm_num),
      show ((-19 : ℚ) / 10) = -(19 / 10) by norm_num, Int.ceil_neg]
    norm_num

/-- C10 witness: the theorem applied to the mock stage frame, whose cells are
the integer demo values. -/
theorem aggregate_stages_truncates_witness :
    aggregate_stages get_mock_funnel_data.1
      = some (fun k => (get_mock_funnel_data.1.rows.map (fun r => truncQ (r k))).sum)
    ∧ (((get_mock_funnel_data.1.rows.map
          (fun r => truncQ (r StageKey.Discovery))).sum : ℤ) : ℚ)
      = (get_mock_funnel_data.1.rows.map (fun r => r StageKey.Discovery)).sum := by
  have h := aggregate_stages_truncates get_mock_funnel_data.1 (fun _ => rfl)
  refine ⟨h.1, h.2.1 ?_ StageKey.Discovery⟩
  intro r hr k
  have hr2 : r ∈ [fun k0 => ((mockStageRow k0 : ℤ) : ℚ)] := hr
  rw [List.mem_singleton] at hr2
  subst hr2
  exact ⟨mockStageRow k, rfl⟩

/-- C7: on the built-in demo data the cohort cell is 7700, the stage-1
dropoff cell is 800 with percentage 10.4, and the approved-consent summary
percentage is 16.2. -/
theorem demo_report_values :
    tableCell demoTable 6 2 = some (Cell.int 7700)
    ∧ tableCell demoTable 7 5 = some (Cell.int 800)
    ∧ tableCell demoTable 7 6 = some (Cell.pct (104 / 10))
    ∧ tableCell demoTable 1 1 = some (Cell.pct (162 / 10)) := by
  have hagg : aggregate_stages get_mock_funnel_data.1 = some (fun k => mockStageRow k) := by
    unfold aggregate_stages
    rw [if_pos (show STAGE_COLUMNS.all get_mock_funnel_data.1.present = true from rfl)]
    congr 1
    funext k
    show (List.map (fun r => truncQ (r k))
        [fun k0 => ((mockStageRow k0 : ℤ) : ℚ)]).sum = mockStageRow k
    simp [truncQ_intCast]
  have ht : demoTable = some (buildCore ⟨800, 450, 1050, 600, 1600, 1950, 1250, 150, 1100, 820, 50⟩
      (some ⟨0, 450, 1200⟩) (some ⟨some 350, some 600, some 400, some 150, some 200⟩)
      [⟨"Success", 820⟩, ⟨"Failed", 230⟩, ⟨"Not Attempted", 50⟩]) := by
    unfold demoTable
    rw [hagg]
    rfl
  rw [ht]
  have hp1 : _pct 800 7700 = 104 / 10 := by
    unfold _pct round1
    rw [if_pos (by norm_num), round_eq]
    norm_num
  have hp2 : _pct 1250 7700 = 162 / 10 := by
    unfold _pct round1
    rw [if_pos (by norm_num), round_eq]
    norm_num
  refine ⟨rfl, rfl, ?_, ?_⟩
  · show some (Cell.pct (_pct 800 7700)) = some (Cell.pct (104 / 10))
    rw [hp1]
  · show some (Cell.pct (_pct 1250 7700)) = some (Cell.pct (162 / 10))
    rw [hp2]

/-- C2: the percentage helper equals the specified formula, rounding
100 times count over cohort to one decimal when the cohort is positive and
yielding 0 otherwise (so it is total and never divides by zero); and in the
built table every count cell in a success or dropoff column is accompanied
by exactly that percentage of the cohort, including the two summary
percentage cells. -/
theorem pct_fields_formula :
    (∀ v t : ℤ, _pct v t
        = if 0 < t then ((round ((((100 * v : ℤ) : ℚ) / (t : ℚ)) * 10) : ℤ) : ℚ) / 10
          else 0)
    ∧ (∀ (f : StageKey → ℤ) (otp : Option OtpTotals) (disc : Option DiscTotals)
        (fi : List FiRow) (r : ℕ) (cnt : ℤ), r < 24 →
        ((tableCell (build_report_table (fun k => some (f k)) otp disc fi) r 2
            = some (Cell.int cnt) →
          tableCell (build_report_table (fun k => some (f k)) otp disc fi) r 3
            = some (Cell.pct (_pct cnt (f .AA_client_Initialization
                + f .OTP_Based_Sign_in_Sign_up + f .View_Consent_Details
                + f .Discovery + f .Linking + f .Rejected_Consent_Requests
                + f .Approved_Consent_Requests))))
          ∧ (tableCell (build_report_table (fun k => some (f k)) otp disc fi) r 5
              = some (Cell.int cnt) →
            tableCell (build_report_table (fun k => some (f k)) otp disc fi) r 6
              = some (Cell.pct (_pct cnt (f .AA_client_Initialization
                  + f .OTP_Based_Sign_in_Sign_up + f .View_Consent_Details
                  + f .Discovery + f .Linking + f .Rejected_Consent_Requests
                  + f .Approved_Consent_Requests))))))
    ∧ (∀ (f : StageKey → ℤ) (otp : Option OtpTotals) (disc : Option DiscTotals)
        (fi : List FiRow),
        tableCell (build_report_table (fun k => some (f k)) otp disc fi) 1 1
          = some (Cell.pct (_pct (f .Approved_Consent_Requests)
              (f .AA_client_Initialization + f .OTP_Based_Sign_in_Sign_up
               + f .View_Consent_Details + f .Discovery + f .Linking
               + f .Rejected_Consent_Requests + f .Approved_Consent_Requests)))
        ∧ tableCell (build_report_table (fun k => some (f k)) otp disc fi) 2 1
          = some (Cell.pct (_pct (f .Data_Fetch_Success)
              (f .AA_client_Initialization + f .OTP_Based_Sign_in_Sign_up
               + f .View_Consent_Details + f .Discovery + f .Linking
               + f .Rejected_Consent_Requests + f .Approved_Consent_Requests)))) := by
  refine ⟨?_, ?_, fun f otp disc fi => ⟨rfl, rfl⟩⟩
  · intro v t
    unfold _pct round1
    split_ifs with h
    · congr 2
      push_cast
      ring_nf
    · rfl
  · intro f otp disc fi r cnt hr
    interval_cases r <;>
      constructor <;>
      intro h <;>
      first
        | exact Cell.noConfusion (Option.some.inj h)
        | (have h2 := Option.some.inj h
           injection h2 with h3
           subst h3
           rfl)

/-- C2 witness: the table part applied at the all-zero stage mapping, row 6,
count 0 (both the success and the dropoff count of row 6 are 0 there). -/
theorem pct_fields_formula_witness :
    tableCell (build_report_table (fun _ => some 0) none none []) 6 3
      = some (Cell.pct (_pct 0 0))
    ∧ tableCell (build_report_table (fun _ => some 0) none none []) 6 6
      = some (Cell.pct (_pct 0 0)) := by
  have h := pct_fields_formula.2.1 (fun _ => 0) none none [] 6 0 (by decide)
  exact ⟨h.1 rfl, h.2 rfl⟩
